import Mathlib

/-!
Shallow embedding of scripts/ingest.py: a one-shot pipeline that reads a CSV
into a pandas DataFrame, validates required/duplicate column names, rewrites
datetime64 columns with dt.strftime, and emits row records, Tabulator column
definitions and run metadata.
-/

namespace Ingest

/-- Pandas timestamp (one entry of a datetime64[ns] column), at the second
precision used by the strftime format string in ingest.py. -/
structure PyDatetime where
  year : Nat
  month : Nat
  day : Nat
  hour : Nat
  minute : Nat
  second : Nat
  deriving DecidableEq

/-- Cell values of the in-memory DataFrame as they matter to ingest.py.
Value.nan covers the pandas missing markers (float NaN and NaT); Value.null is
Python None, which json.dump serializes as JSON null. -/
inductive Value where
  | int (n : Int)
  | float (q : Rat)
  | str (s : String)
  | datetime (t : PyDatetime)
  | nan
  | null
  deriving DecidableEq

/-- The pandas column dtypes that can reach infer_tabulator_columns here. -/
inductive Dtype where
  | int64
  | float64
  | datetime64
  | object
  deriving DecidableEq

/-- One named, typed pandas column. -/
structure Column where
  name : String
  dtype : Dtype
  values : List Value
  deriving DecidableEq

/-- A DataFrame: an ordered sequence of named columns. -/
structure DataFrame where
  cols : List Column
  deriving DecidableEq

/-- Zero-padded two-digit decimal rendering, as strftime %m %d %H %M %S emit. -/
def pad2 (n : Nat) : List Char :=
  [Nat.digitChar (n / 10 % 10), Nat.digitChar (n % 10)]

/-- Zero-padded four-digit decimal rendering of the year, as %Y emits for every
year representable in datetime64[ns] (1678..2261). -/
def pad4 (n : Nat) : List Char :=
  [Nat.digitChar (n / 1000 % 10), Nat.digitChar (n / 100 % 10),
   Nat.digitChar (n / 10 % 10), Nat.digitChar (n % 10)]

/-- Embedding of Series.dt.strftime with format "%Y-%m-%dT%H:%M:%SZ" applied to
one timestamp. -/
def strftimeIsoZ (t : PyDatetime) : String :=
  String.mk (pad4 t.year ++ '-' :: pad2 t.month ++ '-' :: pad2 t.day ++
    'T' :: pad2 t.hour ++ ':' :: pad2 t.minute ++ ':' :: pad2 t.second ++ ['Z'])

/-- Checks that a string has the shape YYYY-MM-DDTHH:MM:SSZ: twenty characters,
digits in the date/time positions and the fixed separators in between. -/
def isIsoZ (s : String) : Bool :=
  match s.toList with
  | [y1, y2, y3, y4, c1, m1, m2, c2, d1, d2, c3, h1, h2, c4, n1, n2, c5, s1, s2, c6] =>
      y1.isDigit && y2.isDigit && y3.isDigit && y4.isDigit && c1 == '-' &&
      m1.isDigit && m2.isDigit && c2 == '-' && d1.isDigit && d2.isDigit && c3 == 'T' &&
      h1.isDigit && h2.isDigit && c4 == ':' && n1.isDigit && n2.isDigit && c5 == ':' &&
      s1.isDigit && s2.isDigit && c6 == 'Z'
  | _ => false

/-- Action of dt.strftime on one cell: a timestamp becomes its formatted string;
NaT (modelled by Value.nan) stays missing, exactly as dt.strftime maps NaT to
NaN. -/
def fmtCell : Value → Value
  | Value.datetime t => Value.str (strftimeIsoZ t)
  | v => v

/-- Embedding of the loop in main that reassigns every datetime64 column to
df[c].dt.strftime("%Y-%m-%dT%H:%M:%SZ"); the rewritten column holds strings,
so its dtype is object afterwards. Other columns are untouched. -/
def normalizeDatetimes (df : DataFrame) : DataFrame :=
  DataFrame.mk (df.cols.map (fun c =>
    if c.dtype = Dtype.datetime64 then
      Column.mk c.name Dtype.object (c.values.map fmtCell)
    else c))

/-- Effect of df.where(pd.notnull(df), None) on one cell: every cell pd.notnull
rejects (NaN, NaT, None) is replaced by Python None. -/
def fillNull : Value → Value
  | Value.nan => Value.null
  | v => v

/-- Embedding of df.where(pd.notnull(df), None): cellwise fillNull. -/
def notnullFill (df : DataFrame) : DataFrame :=
  DataFrame.mk (df.cols.map (fun c => Column.mk c.name c.dtype (c.values.map fillNull)))

/-- Embedding of df.shape[0]: the length of the index, here the length of the
first column of a rectangular frame. -/
def nRows (df : DataFrame) : Nat :=
  match df.cols with
  | [] => 0
  | c :: _ => c.values.length

/-- Embedding of df.columns as a list of names. -/
def columnNames (df : DataFrame) : List String :=
  df.cols.map (fun c => c.name)

/-- Embedding of df.to_dict(orient="records"): one record per row index,
mapping each column name to that row's cell, in column order. -/
def toRecords (df : DataFrame) : List (List (String × Value)) :=
  (List.range (nRows df)).map (fun i =>
    df.cols.map (fun c => (c.name, c.values.getD i Value.nan)))

/-- One step of Python str.title(): an alphabetic character is uppercased when
the previous character is not alphabetic (or at the start) and lowercased
otherwise; non-alphabetic characters pass through. -/
def pyTitleGo : Bool → List Char → List Char
  | _, [] => []
  | prevAlpha, c :: rest =>
      (if c.isAlpha then (if prevAlpha then c.toLower else c.toUpper) else c)
        :: pyTitleGo c.isAlpha rest

/-- Embedding of Python str.title() on ASCII text. -/
def pyTitle (s : String) : String :=
  String.mk (pyTitleGo false s.toList)

/-- Embedding of col.replace("_", " "): the pattern is a single character, so
the replacement is character by character. -/
def underscoreToSpace (s : String) : String :=
  String.mk (s.toList.map (fun c => if c = '_' then ' ' else c))

/-- The dtype-string substring tests of infer_tabulator_columns, resolved per
dtype: "int64" contains "int", "float64" contains "float", "datetime64[ns]"
contains "datetime" (and not "int" or "float"), and "object" contains none of
the tested substrings. -/
def sorterOf : Dtype → String
  | Dtype.int64 => "number"
  | Dtype.float64 => "number"
  | Dtype.datetime64 => "date"
  | Dtype.object => "string"

/-- One Tabulator column definition, with exactly the keys col_def carries in
infer_tabulator_columns. -/
structure ColDef where
  title : String
  field : String
  headerFilter : Bool
  hozAlign : String
  sorter : String
  download : Bool
  width : Option Nat
  deriving DecidableEq

/-- Embedding of infer_tabulator_columns: one ColDef per column, in order. -/
def inferTabulatorColumns (df : DataFrame) : List ColDef :=
  df.cols.map (fun c =>
    ColDef.mk (pyTitle (underscoreToSpace c.name)) c.name true "left"
      (sorterOf c.dtype) true Option.none)

/-- The metadata record built by make_metadata. -/
structure Metadata where
  generated_at : String
  source_filename : String
  n_rows : Nat
  n_columns : Nat
  citation : String
  license : String
  doi : String
  contact : String
  notes : String
  deriving DecidableEq

/-- Embedding of make_metadata: now stands for datetime.utcnow().isoformat() +
"Z" and src for os.path.basename(args.input). On strings, the Python idiom
x or "" is the identity, since it returns x unless x is empty. -/
def makeMetadata (now src citation license doi contact notes : String)
    (df : DataFrame) : Metadata :=
  Metadata.mk now src (nRows df) df.cols.length citation license doi contact notes

/-- The two SystemExit validation failures of main. The carried list is the
full list interpolated into the missing-columns message. -/
inductive IngestError where
  | missingColumns (missing : List String)
  | duplicateColumns
  deriving DecidableEq

/-- The three emitted documents, in structured form: data.json, columns.json
and metadata.json. -/
structure Outputs where
  data : List (List (String × Value))
  columns : List ColDef
  metadata : Metadata
  deriving DecidableEq

/-- Embedding of missing = [c for c in args.required_columns if c not in
df.columns]. -/
def missingRequired (df : DataFrame) (required : List String) : List String :=
  required.filter (fun c => !(columnNames df).contains c)

/-- The two validation checks of main, in source order: the required-columns
check first, then the duplicate-name check (df.columns.duplicated().any());
the DataFrame passes through unchanged on success. -/
def validateTable (df : DataFrame) (required : List String) :
    Except IngestError DataFrame :=
  if missingRequired df required = [] then
    if (columnNames df).Nodup then Except.ok df
    else Except.error IngestError.duplicateColumns
  else Except.error (IngestError.missingColumns (missingRequired df required))

/-- The emission stage of main applied to the already-normalized frame: data
records come from df.where(pd.notnull(df), None).to_dict(orient="records"),
column definitions and metadata from the frame itself. -/
def emitOutputs (now src citation license doi contact notes : String)
    (df : DataFrame) : Outputs :=
  Outputs.mk (toRecords (notnullFill df)) (inferTabulatorColumns df)
    (makeMetadata now src citation license doi contact notes df)

/-- Embedding of main from the parsed DataFrame on: validate, rewrite datetime
columns, then emit the three documents in order data, columns, metadata. An
error value models the SystemExit path: non-zero exit and no file written. -/
def mainPipeline (df : DataFrame) (required : List String)
    (now src citation license doi contact notes : String) :
    Except IngestError Outputs :=
  (validateTable df required).map (fun d =>
    emitOutputs now src citation license doi contact notes (normalizeDatetimes d))

/-- Default NA markers of pd.read_csv: a raw cell equal to one of these is a
missing value. -/
def isNACell (s : String) : Bool :=
  (["", "nan", "NaN", "NULL", "null", "NA", "N/A", "#N/A", "None", "n/a",
    "<NA>"] : List String).contains s

/-- Numeric value of a nonempty all-digit character list. -/
def digitsToNat? (l : List Char) : Option Nat :=
  if !l.isEmpty && l.all Char.isDigit then
    some (l.foldl (fun a c => a * 10 + (c.toNat - 48)) 0)
  else none

/-- Integer syntax the pandas C parser accepts for int64 inference: an optional
sign followed by digits. -/
def parseIntCell (s : String) : Option Int :=
  match s.toList with
  | '-' :: rest => (digitsToNat? rest).map (fun n => -(n : Int))
  | '+' :: rest => (digitsToNat? rest).map (fun n => (n : Int))
  | l => (digitsToNat? l).map (fun n => (n : Int))

/-- Decimal syntax covering the numeric cells this model needs for float64
inference: optional sign, integer digits, optional fraction digits. The value
of d1...dm.f1...fk is (d1...dm * 10 ^ k + f1...fk) / 10 ^ k. -/
def parseFloatCell (s : String) : Option Rat :=
  let core := fun (l : List Char) =>
    let ip := l.takeWhile (fun c => c != '.')
    match l.dropWhile (fun c => c != '.') with
    | [] => (digitsToNat? ip).map (fun n => mkRat (Int.ofNat n) 1)
    | _ :: fp =>
        match digitsToNat? ip, digitsToNat? fp with
        | some n, some f =>
            some (mkRat (Int.ofNat (n * 10 ^ fp.length + f)) (10 ^ fp.length))
        | _, _ => none
  match s.toList with
  | '-' :: rest => (core rest).map (fun q => -q)
  | '+' :: rest => core rest
  | l => core l

/-- Column dtype inference of pd.read_csv: an all-integer column with no
missing cell is int64; a column whose present cells are all numeric is float64
with missing cells as NaN; anything else is object with missing cells as NaN.
A column with no data rows is object. -/
def inferColumn (name : String) (cells : List String) : Column :=
  if !cells.isEmpty && cells.all (fun s => !isNACell s && (parseIntCell s).isSome) then
    Column.mk name Dtype.int64
      (cells.map (fun s => Value.int ((parseIntCell s).getD 0)))
  else if !cells.isEmpty && cells.all (fun s => isNACell s || (parseFloatCell s).isSome) then
    Column.mk name Dtype.float64
      (cells.map (fun s => if isNACell s then Value.nan
        else Value.float ((parseFloatCell s).getD 0)))
  else
    Column.mk name Dtype.object
      (cells.map (fun s => if isNACell s then Value.nan else Value.str s))

/-- Association-list update for the counts dictionary of dedup_names. -/
def setCount : List (String × Nat) → String → Nat → List (String × Nat)
  | [], k, v => [(k, v)]
  | (k0, v0) :: rest, k, v =>
      if k0 = k then (k, v) :: rest else (k0, v0) :: setCount rest k v

/-- Lookup in the counts dictionary, defaulting to 0 as a defaultdict does. -/
def getCount (counts : List (String × Nat)) (k : String) : Nat :=
  (counts.lookup k).getD 0

/-- The while loop of pandas dedup_names for one header entry: while the
current name has a positive count, record count + 1 for it and retry with
name ++ "." ++ count. The fuel bounds the loop; header length + 1 iterations
always suffice because each iteration consumes a distinct positive-count key
and the loop body adds none. -/
def dedupStep (fuel : Nat) (counts : List (String × Nat)) (col : String) :
    String × List (String × Nat) :=
  match fuel with
  | 0 => (col, setCount counts col (getCount counts col + 1))
  | fuel + 1 =>
      let cur := getCount counts col
      if cur = 0 then (col, setCount counts col 1)
      else dedupStep fuel (setCount counts col (cur + 1)) (col ++ "." ++ toString cur)

/-- Embedding of pandas dedup_names as pd.read_csv applies it to the header
row: a repeated name x becomes x.1, then x.2, and so on. -/
def dedupNames (names : List String) : List String :=
  (names.foldl (fun acc col =>
    let r := dedupStep (names.length + 1) acc.2 col
    (acc.1 ++ [r.1], r.2)) (([] : List String), ([] : List (String × Nat)))).1

/-- Embedding of pd.read_csv on an already-tokenized CSV: a header row and data
rows of raw cell strings. Pandas deduplicates repeated header names and then
infers each column dtype; a missing cell at the end of a short row reads as
missing. -/
def readCsv (header : List String) (rows : List (List String)) : DataFrame :=
  DataFrame.mk ((dedupNames header).enum.map (fun p =>
    inferColumn p.2 (rows.map (fun r => r.getD p.1 ""))))

/-- Embedding of main from the raw CSV text on: pd.read_csv followed by the
DataFrame pipeline. -/
def pipelineFromCsv (header : List String) (rows : List (List String))
    (required : List String)
    (now src citation license doi contact notes : String) :
    Except IngestError Outputs :=
  mainPipeline (readCsv header rows) required now src citation license doi contact notes

/-- Rectangular-frame invariant: every column has the index length. -/
def Wellformed (df : DataFrame) : Prop :=
  ∀ c ∈ df.cols, c.values.length = nRows df

/-- The cells pd.notnull rejects: the source-level missing markers. -/
def isMissing (v : Value) : Prop :=
  v = Value.nan ∨ v = Value.null

end Ingest

deriving instance DecidableEq for Except

namespace Ingest

/-- Helper: a digit character produced from a remainder by ten is a digit. -/
lemma digitChar_mod_isDigit (x : Nat) : (Nat.digitChar (x % 10)).isDigit = true := by
  have h : x % 10 < 10 := Nat.mod_lt x (by norm_num)
  have hall : ∀ m < 10, (Nat.digitChar m).isDigit = true := by decide
  exact hall _ h

/-- Helper: the strftime output always has the YYYY-MM-DDTHH:MM:SSZ shape. -/
lemma isIsoZ_strftimeIsoZ (t : PyDatetime) : isIsoZ (strftimeIsoZ t) = true := by
  simp [isIsoZ, strftimeIsoZ, pad4, pad2, digitChar_mod_isDigit]

/-- Helper: the datetime rewrite keeps the column names. -/
lemma columnNames_normalizeDatetimes (df : DataFrame) :
    columnNames (normalizeDatetimes df) = columnNames df := by
  unfold columnNames normalizeDatetimes
  simp only [List.map_map]
  congr 1
  funext c
  by_cases h : c.dtype = Dtype.datetime64 <;> simp [h, Function.comp]

/-- Helper: the null substitution keeps the column names. -/
lemma columnNames_notnullFill (df : DataFrame) :
    columnNames (notnullFill df) = columnNames df := by
  unfold columnNames notnullFill
  simp [List.map_map, Function.comp]

/-- Helper: the datetime rewrite keeps the column count. -/
lemma cols_length_normalizeDatetimes (df : DataFrame) :
    (normalizeDatetimes df).cols.length = df.cols.length := by
  simp [normalizeDatetimes]

/-- Helper: the null substitution keeps the column count. -/
lemma cols_length_notnullFill (df : DataFrame) :
    (notnullFill df).cols.length = df.cols.length := by
  simp [notnullFill]

/-- Helper: the datetime rewrite keeps the row count. -/
lemma nRows_normalizeDatetimes (df : DataFrame) :
    nRows (normalizeDatetimes df) = nRows df := by
  obtain ⟨cols⟩ := df
  cases cols with
  | nil => rfl
  | cons c rest =>
      by_cases h : c.dtype = Dtype.datetime64 <;> simp [normalizeDatetimes, nRows, h]

/-- Helper: the null substitution keeps the row count. -/
lemma nRows_notnullFill (df : DataFrame) : nRows (notnullFill df) = nRows df := by
  obtain ⟨cols⟩ := df
  cases cols with
  | nil => rfl
  | cons c rest => simp [notnullFill, nRows]

/-- Helper: the column read off the datetime rewrite at an index. -/
lemma normalizeDatetimes_cols_getElem? (df : DataFrame) (j : Nat) :
    (normalizeDatetimes df).cols[j]? = (df.cols[j]?).map (fun c =>
      if c.dtype = Dtype.datetime64 then
        Column.mk c.name Dtype.object (c.values.map fmtCell)
      else c) := by
  simp [normalizeDatetimes, List.getElem?_map]

/-- Helper: the column read off the null substitution at an index. -/
lemma notnullFill_cols_getElem? (df : DataFrame) (j : Nat) :
    (notnullFill df).cols[j]? = (df.cols[j]?).map (fun c =>
      Column.mk c.name c.dtype (c.values.map fillNull)) := by
  simp [notnullFill, List.getElem?_map]

/-- Helper: the record list has one entry per row index. -/
lemma toRecords_length (df : DataFrame) : (toRecords df).length = nRows df := by
  simp [toRecords]

/-- Helper: the record at a valid row index. -/
lemma toRecords_getElem? (df : DataFrame) (i : Nat) (hi : i < nRows df) :
    (toRecords df)[i]? =
      some (df.cols.map (fun c => (c.name, c.values.getD i Value.nan))) := by
  unfold toRecords
  rw [List.getElem?_map, List.getElem?_range hi]
  rfl

/-- Helper: one column definition per column. -/
lemma inferTabulatorColumns_length (df : DataFrame) :
    (inferTabulatorColumns df).length = df.cols.length := by
  simp [inferTabulatorColumns]

/-- Helper: the column definition read off at an index. -/
lemma inferTabulatorColumns_getElem? (df : DataFrame) (j : Nat) :
    (inferTabulatorColumns df)[j]? = (df.cols[j]?).map (fun c =>
      ColDef.mk (pyTitle (underscoreToSpace c.name)) c.name true "left"
        (sorterOf c.dtype) true Option.none) := by
  simp [inferTabulatorColumns, List.getElem?_map]

/-- Helper: validation hands back the very frame it was given. -/
lemma validateTable_ok {df : DataFrame} {required : List String} {d : DataFrame}
    (h : validateTable df required = Except.ok d) : d = df := by
  unfold validateTable at h
  split at h
  · split at h
    · injection h with h
      exact h.symm
    · cases h
  · cases h

/-- Helper: a successful run is the emission stage on the normalized frame. -/
lemma mainPipeline_ok {df : DataFrame} {required : List String}
    {now src cit lic doi co no : String} {out : Outputs}
    (h : mainPipeline df required now src cit lic doi co no = Except.ok out) :
    validateTable df required = Except.ok df ∧
    out = emitOutputs now src cit lic doi co no (normalizeDatetimes df) := by
  unfold mainPipeline at h
  rcases hv : validateTable df required with e | d
  · rw [hv] at h
    cases h
  · have hd := validateTable_ok hv
    subst hd
    rw [hv] at h
    injection h with h
    exact ⟨rfl, h.symm⟩

/-- The one-column frame whose single column holds a date/time instant, used to
evaluate the schema-tagging path of main. -/
def c1Frame : DataFrame :=
  DataFrame.mk [Column.mk "joined" Dtype.datetime64
    [Value.datetime (PyDatetime.mk 2023 1 1 0 0 0)]]

/-- C1: evaluating main on a table with a date/time column shows the emitted
column-schema entry carries sorter "string", not "date": main rewrites the
column with dt.strftime (making its dtype object) before calling
infer_tabulator_columns, so the "date" branch of the sorter mapping is
unreachable and a temporal column IS tagged "string", against the claim. -/
theorem c1_temporal_column_tagged_string :
    c1Frame.cols.map Column.dtype = [Dtype.datetime64] ∧
    Except.map (fun out => (Outputs.columns out).map ColDef.sorter)
      (mainPipeline c1Frame [] "T0" "in.csv" "" "" "" "" "") =
      Except.ok ["string"] := by
  constructor
  · rfl
  · decide

/-- Header of the end-to-end example CSV. -/
def c2Header : List String := ["id", "name", "score", "joined"]

/-- Data rows of the end-to-end example CSV. -/
def c2Rows : List (List String) :=
  [["1", "Alice", "9.5", "2023-01-01"], ["2", "Bob", "", "2023-02-15"]]

/-- The run of the pipeline on the end-to-end example CSV with an empty
required-column list. -/
def c2Run : Except IngestError Outputs :=
  pipelineFromCsv c2Header c2Rows [] "T0" "my_study_data.csv" "" "" "" "" ""

/-- C2 counterexample: on the example CSV the claimed data.json and sorter list
are not produced: pd.read_csv leaves "2023-01-01" as text, so the joined cells
stay "2023-01-01"/"2023-02-15" (not ...T00:00:00Z) and the joined sorter is
"string" (not "date"). -/
theorem c2_counterexample :
    Except.map (fun out => (Outputs.data out, (Outputs.columns out).map ColDef.sorter))
        c2Run ≠
      Except.ok
        ([[("id", Value.int 1), ("name", Value.str "Alice"),
           ("score", Value.float (mkRat 19 2)),
           ("joined", Value.str "2023-01-01T00:00:00Z")],
          [("id", Value.int 2), ("name", Value.str "Bob"),
           ("score", Value.null), ("joined", Value.str "2023-02-15T00:00:00Z")]],
         ["number", "string", "number", "date"]) := by
  decide

/-- C2 amended: on the example CSV with required columns [], the pipeline
produces data.json with the joined cells as the unparsed source text, the
missing score as null, columns.json with 4 entries and sorters
["number", "string", "number", "string"], and metadata with n_rows = 2 and
n_columns = 4. -/
theorem c2_end_to_end :
    c2Run = Except.ok (Outputs.mk
      [[("id", Value.int 1), ("name", Value.str "Alice"),
        ("score", Value.float (mkRat 19 2)), ("joined", Value.str "2023-01-01")],
       [("id", Value.int 2), ("name", Value.str "Bob"),
        ("score", Value.null), ("joined", Value.str "2023-02-15")]]
      [ColDef.mk "Id" "id" true "left" "number" true Option.none,
       ColDef.mk "Name" "name" true "left" "string" true Option.none,
       ColDef.mk "Score" "score" true "left" "number" true Option.none,
       ColDef.mk "Joined" "joined" true "left" "string" true Option.none]
      (Metadata.mk "T0" "my_study_data.csv" 2 4 "" "" "" "" "")) := by
  decide

/-- C4 counterexample: a CSV whose header has two columns both named "x" does
not abort with the duplicate-columns error: pd.read_csv deduplicates the
header to x, x.1 before the check runs. -/
theorem c4_counterexample :
    pipelineFromCsv ["x", "x"] [["1", "2"]] [] "T0" "in.csv" "" "" "" "" "" ≠
      Except.error IngestError.duplicateColumns := by
  decide

/-- C4 amended: on a CSV source with two columns both named "x", pd.read_csv
renames the columns to "x" and "x.1", the duplicate-name check passes, and the
run completes, emitting all three documents. -/
theorem c4_duplicate_header_renamed :
    Except.map (fun out => (Outputs.columns out).map ColDef.field)
      (pipelineFromCsv ["x", "x"] [["1", "2"]] [] "T0" "in.csv" "" "" "" "" "") =
      Except.ok ["x", "x.1"] := by
  decide

/-- C9: the whole run is a pure function of the input and parameters: two runs
that differ only in the generated_at timestamp produce identical data and
columns documents (whether they fail or succeed). -/
theorem c9_deterministic_outputs (header : List String) (rows : List (List String))
    (required : List String) (src cit lic doi co no t1 t2 : String) :
    Except.map (fun out => (Outputs.data out, Outputs.columns out))
      (pipelineFromCsv header rows required t1 src cit lic doi co no) =
    Except.map (fun out => (Outputs.data out, Outputs.columns out))
      (pipelineFromCsv header rows required t2 src cit lic doi co no) := by
  unfold pipelineFromCsv mainPipeline
  rcases validateTable (readCsv header rows) required with e | d <;> rfl

/-- C3: when at least one required name is absent the run fails with the
missing-columns error carrying every absent name (not only the first) and
emits nothing; when all required names are present the required-columns check
passes and hands the table on unchanged to the duplicate check. -/
theorem c3_required_columns (df : DataFrame) (required : List String)
    (now src cit lic doi co no : String) :
    ((∃ r ∈ required, r ∉ columnNames df) →
      mainPipeline df required now src cit lic doi co no =
        Except.error (IngestError.missingColumns (missingRequired df required)) ∧
      ∀ r ∈ required, r ∉ columnNames df → r ∈ missingRequired df required) ∧
    ((∀ r ∈ required, r ∈ columnNames df) →
      validateTable df required =
        if (columnNames df).Nodup then Except.ok df
        else Except.error IngestError.duplicateColumns) := by
  constructor
  · rintro ⟨r, hr, hnot⟩
    have hmem : r ∈ missingRequired df required := by
      simp [missingRequired, List.mem_filter, hr, hnot]
    have hne : missingRequired df required ≠ [] := by
      intro h0
      rw [h0] at hmem
      cases hmem
    refine ⟨?_, ?_⟩
    · unfold mainPipeline validateTable
      rw [if_neg hne]
      rfl
    · intro a ha hnota
      simp [missingRequired, List.mem_filter, ha, hnota]
  · intro hall
    have h0 : missingRequired df required = [] := by
      apply List.filter_eq_nil_iff.mpr
      intro a ha
      simp [hall a ha]
    unfold validateTable
    rw [if_pos h0]

/-- C3 witness: against columns ["a"], requiring ["a", "b"] fails naming b,
and requiring ["a"] validates and returns the same frame. -/
theorem c3_required_columns_witness :
    mainPipeline (DataFrame.mk [Column.mk "a" Dtype.object []]) ["a", "b"]
        "T0" "s" "" "" "" "" "" =
      Except.error (IngestError.missingColumns ["b"]) ∧
    validateTable (DataFrame.mk [Column.mk "a" Dtype.object []]) ["a"] =
      Except.ok (DataFrame.mk [Column.mk "a" Dtype.object []]) := by
  constructor
  · exact ((c3_required_columns (DataFrame.mk [Column.mk "a" Dtype.object []])
      ["a", "b"] "T0" "s" "" "" "" "" "").1 ⟨"b", by decide, by decide⟩).1
  · exact (c3_required_columns (DataFrame.mk [Column.mk "a" Dtype.object []])
      ["a"] "T0" "s" "" "" "" "" "").2 (by decide)

/-- C7: the normalizer rewrites exactly the datetime64 columns, mapping every
timestamp cell to its strftime text, which always matches the
YYYY-MM-DDTHH:MM:SSZ shape; every other column passes through unchanged, and
the rewrite is a total function, so it cannot raise. -/
theorem c7_temporal_normalization (df : DataFrame) (j : Nat) (c : Column)
    (hc : df.cols[j]? = some c) :
    (c.dtype ≠ Dtype.datetime64 → (normalizeDatetimes df).cols[j]? = some c) ∧
    (c.dtype = Dtype.datetime64 →
      (normalizeDatetimes df).cols[j]? =
        some (Column.mk c.name Dtype.object (c.values.map fmtCell))) ∧
    (∀ t, fmtCell (Value.datetime t) = Value.str (strftimeIsoZ t)) ∧
    (∀ t, isIsoZ (strftimeIsoZ t) = true) := by
  refine ⟨?_, ?_, fun t => rfl, fun t => isIsoZ_strftimeIsoZ t⟩
  · intro h
    rw [normalizeDatetimes_cols_getElem?, hc]
    simp [h]
  · intro h
    rw [normalizeDatetimes_cols_getElem?, hc]
    simp [h]

/-- C7 witness: a concrete one-column datetime frame is rewritten to the
formatted text, and the text matches the shape checker. -/
theorem c7_temporal_normalization_witness :
    (normalizeDatetimes (DataFrame.mk [Column.mk "d" Dtype.datetime64
        [Value.datetime (PyDatetime.mk 2023 5 17 8 30 9)]])).cols[0]? =
      some (Column.mk "d" Dtype.object [Value.str "2023-05-17T08:30:09Z"]) ∧
    isIsoZ "2023-05-17T08:30:09Z" = true := by
  have h := c7_temporal_normalization (DataFrame.mk [Column.mk "d" Dtype.datetime64
    [Value.datetime (PyDatetime.mk 2023 5 17 8 30 9)]]) 0
    (Column.mk "d" Dtype.datetime64 [Value.datetime (PyDatetime.mk 2023 5 17 8 30 9)]) rfl
  refine ⟨(h.2.1 rfl).trans (by decide), ?_⟩
  have e : strftimeIsoZ (PyDatetime.mk 2023 5 17 8 30 9) = "2023-05-17T08:30:09Z" := by
    decide
  exact e ▸ h.2.2.2 (PyDatetime.mk 2023 5 17 8 30 9)

/-- C8: every emitted column-schema entry is exactly a ColDef whose title is
the column name with underscores as spaces and title-cased, whose field is the
original name, with headerFilter true, hozAlign "left", download true, width
null, and a sorter drawn from "number"/"date"/"string". -/
theorem c8_column_schema (df : DataFrame) (required : List String)
    (now src cit lic doi co no : String) (out : Outputs)
    (h : mainPipeline df required now src cit lic doi co no = Except.ok out)
    (j : Nat) (c : Column) (hc : (normalizeDatetimes df).cols[j]? = some c) :
    (Outputs.columns out)[j]? =
      some (ColDef.mk (pyTitle (underscoreToSpace c.name)) c.name true "left"
        (sorterOf c.dtype) true Option.none) ∧
    sorterOf c.dtype ∈ (["number", "date", "string"] : List String) := by
  obtain ⟨-, hout⟩ := mainPipeline_ok h
  subst hout
  constructor
  · show (inferTabulatorColumns (normalizeDatetimes df))[j]? = _
    rw [inferTabulatorColumns_getElem?, hc]
    rfl
  · cases c.dtype <;> simp [sorterOf]

/-- C8 witness: the schema entry of a concrete int64 column named my_score. -/
theorem c8_column_schema_witness :
    (Outputs.columns (emitOutputs "T0" "s" "" "" "" "" ""
        (normalizeDatetimes (DataFrame.mk [Column.mk "my_score" Dtype.int64
          [Value.int 3]]))))[0]? =
      some (ColDef.mk "My Score" "my_score" true "left" "number" true Option.none) ∧
    "number" ∈ (["number", "date", "string"] : List String) := by
  have h := c8_column_schema (DataFrame.mk [Column.mk "my_score" Dtype.int64 [Value.int 3]])
    [] "T0" "s" "" "" "" "" ""
    (emitOutputs "T0" "s" "" "" "" "" ""
      (normalizeDatetimes (DataFrame.mk [Column.mk "my_score" Dtype.int64 [Value.int 3]])))
    rfl 0 (Column.mk "my_score" Dtype.int64 [Value.int 3]) (by decide)
  exact ⟨h.1.trans (by decide), h.2⟩

/-- C10: on every successful run the metadata row count equals the number of
emitted data records and the metadata column count equals the number of
emitted column-schema entries. -/
theorem c10_metadata_counts (df : DataFrame) (required : List String)
    (now src cit lic doi co no : String) (out : Outputs)
    (h : mainPipeline df required now src cit lic doi co no = Except.ok out) :
    (Outputs.metadata out).n_rows = (Outputs.data out).length ∧
    (Outputs.metadata out).n_columns = (Outputs.columns out).length := by
  obtain ⟨-, hout⟩ := mainPipeline_ok h
  subst hout
  constructor
  · show nRows (normalizeDatetimes df) =
      (toRecords (notnullFill (normalizeDatetimes df))).length
    rw [toRecords_length, nRows_notnullFill]
  · show (normalizeDatetimes df).cols.length =
      (inferTabulatorColumns (normalizeDatetimes df)).length
    rw [inferTabulatorColumns_length]

/-- C10 witness: the counts agree on a concrete two-row one-column run. -/
theorem c10_metadata_counts_witness :
    (Outputs.metadata (emitOutputs "T0" "s" "" "" "" "" ""
      (normalizeDatetimes (DataFrame.mk [Column.mk "a" Dtype.int64
        [Value.int 1, Value.int 2]])))).n_rows =
      (Outputs.data (emitOutputs "T0" "s" "" "" "" "" ""
        (normalizeDatetimes (DataFrame.mk [Column.mk "a" Dtype.int64
          [Value.int 1, Value.int 2]])))).length ∧
    (Outputs.metadata (emitOutputs "T0" "s" "" "" "" "" ""
      (normalizeDatetimes (DataFrame.mk [Column.mk "a" Dtype.int64
        [Value.int 1, Value.int 2]])))).n_columns =
      (Outputs.columns (emitOutputs "T0" "s" "" "" "" "" ""
        (normalizeDatetimes (DataFrame.mk [Column.mk "a" Dtype.int64
          [Value.int 1, Value.int 2]])))).length :=
  c10_metadata_counts (DataFrame.mk [Column.mk "a" Dtype.int64 [Value.int 1, Value.int 2]])
    [] "T0" "s" "" "" "" "" "" _ rfl

/-- Helper: reading a record key list off the record constructor. -/
lemma toRecords_keys (d : DataFrame) (rec : List (String × Value))
    (hrec : rec ∈ toRecords d) :
    rec.map Prod.fst = columnNames d ∧ rec.length = d.cols.length := by
  unfold toRecords at hrec
  obtain ⟨i, hi, hrfl⟩ := List.mem_map.mp hrec
  subst hrfl
  constructor
  · simp [columnNames, List.map_map]
  · simp

/-- C6: a validated run emits exactly one record per source row; each record
lists exactly the column names as its keys, in column order, and the record at
index i is built from row i, so record order follows source row order. -/
theorem c6_round_trip (df : DataFrame) (required : List String)
    (now src cit lic doi co no : String) (out : Outputs)
    (h : mainPipeline df required now src cit lic doi co no = Except.ok out) :
    (Outputs.data out).length = nRows df ∧
    (∀ rec ∈ Outputs.data out,
      rec.map Prod.fst = columnNames df ∧ rec.length = df.cols.length) ∧
    (∀ i, i < nRows df → (Outputs.data out)[i]? =
      some ((notnullFill (normalizeDatetimes df)).cols.map
        (fun c => (c.name, c.values.getD i Value.nan)))) := by
  obtain ⟨-, hout⟩ := mainPipeline_ok h
  subst hout
  refine ⟨?_, ?_, ?_⟩
  · show (toRecords (notnullFill (normalizeDatetimes df))).length = nRows df
    rw [toRecords_length, nRows_notnullFill, nRows_normalizeDatetimes]
  · intro rec hrec
    have hk := toRecords_keys (notnullFill (normalizeDatetimes df)) rec hrec
    rw [columnNames_notnullFill, columnNames_normalizeDatetimes,
      cols_length_notnullFill, cols_length_normalizeDatetimes] at hk
    exact hk
  · intro i hi
    have hi2 : i < nRows (notnullFill (normalizeDatetimes df)) := by
      rw [nRows_notnullFill, nRows_normalizeDatetimes]
      exact hi
    exact toRecords_getElem? _ i hi2

/-- C6 witness: the single record of a concrete one-row run carries exactly
the column key. -/
theorem c6_round_trip_witness :
    (Outputs.data (emitOutputs "T0" "s" "" "" "" "" ""
      (normalizeDatetimes (DataFrame.mk
        [Column.mk "a" Dtype.object [Value.str "u"]])))).length = 1 ∧
    (Outputs.data (emitOutputs "T0" "s" "" "" "" "" ""
      (normalizeDatetimes (DataFrame.mk
        [Column.mk "a" Dtype.object [Value.str "u"]]))))[0]? =
      some [("a", Value.str "u")] := by
  have h := c6_round_trip (DataFrame.mk [Column.mk "a" Dtype.object [Value.str "u"]])
    [] "T0" "s" "" "" "" "" ""
    (emitOutputs "T0" "s" "" "" "" "" ""
      (normalizeDatetimes (DataFrame.mk [Column.mk "a" Dtype.object [Value.str "u"]])))
    rfl
  exact ⟨h.1.trans (by decide), (h.2.2 0 (by decide)).trans (by decide)⟩

/-- Helper: getD through a map below the length bound. -/
lemma getD_map_of_lt {α β : Type _} (f : α → β) (l : List α) (i : Nat) (d : β)
    (d0 : α) (h : i < l.length) : (l.map f).getD i d = f (l.getD i d0) := by
  rw [List.getD_eq_getElem?_getD, List.getD_eq_getElem?_getD, List.getElem?_map,
    List.getElem?_eq_getElem h]
  rfl

/-- Helper: the cell of a record emitted for a rectangular frame, with the
guarantee that a source-missing cell surfaces as the null marker. -/
lemma emit_record_cell (df : DataFrame) (hw : Wellformed df) (i j : Nat)
    (c : Column) (hc : df.cols[j]? = some c) (hi : i < nRows df) :
    ∃ rec v,
      (toRecords (notnullFill (normalizeDatetimes df)))[i]? = some rec ∧
      rec[j]? = some (c.name, v) ∧
      (isMissing (c.values.getD i Value.nan) → v = Value.null) := by
  have hlen : c.values.length = nRows df := hw c (List.getElem?_mem hc)
  have hiv : i < c.values.length := by
    rw [hlen]
    exact hi
  have hi2 : i < nRows (notnullFill (normalizeDatetimes df)) := by
    rw [nRows_notnullFill, nRows_normalizeDatetimes]
    exact hi
  have hcol3 : (notnullFill (normalizeDatetimes df)).cols[j]? =
      some (Column.mk c.name
        (if c.dtype = Dtype.datetime64 then Dtype.object else c.dtype)
        ((if c.dtype = Dtype.datetime64 then c.values.map fmtCell
          else c.values).map fillNull)) := by
    rw [notnullFill_cols_getElem?, normalizeDatetimes_cols_getElem?, hc]
    by_cases hdt : c.dtype = Dtype.datetime64 <;> simp [hdt]
  refine ⟨_, ((if c.dtype = Dtype.datetime64 then c.values.map fmtCell
      else c.values).map fillNull).getD i Value.nan,
    toRecords_getElem? _ i hi2, ?_, ?_⟩
  · rw [List.getElem?_map, hcol3]
    rfl
  · intro hm
    have hlen2 : i < (if c.dtype = Dtype.datetime64 then c.values.map fmtCell
        else c.values).length := by
      by_cases hdt : c.dtype = Dtype.datetime64 <;> simp [hdt, hiv]
    rw [getD_map_of_lt fillNull _ i Value.nan Value.nan hlen2]
    by_cases hdt : c.dtype = Dtype.datetime64
    · rw [if_pos hdt, getD_map_of_lt fmtCell _ i Value.nan Value.nan hiv]
      rcases hm with hm | hm <;> rw [hm] <;> rfl
    · rw [if_neg hdt]
      rcases hm with hm | hm <;> rw [hm] <;> rfl

/-- C5: in the emitted row data, every cell that is missing in the source
(NaN, NaT or None) appears as the null marker: its key is present in the
record and its value is null, never a sentinel text such as "nan" or "None". -/
theorem c5_missing_as_null (df : DataFrame) (required : List String)
    (now src cit lic doi co no : String) (out : Outputs)
    (h : mainPipeline df required now src cit lic doi co no = Except.ok out)
    (hw : Wellformed df) (i j : Nat) (c : Column)
    (hc : df.cols[j]? = some c) (hi : i < nRows df) :
    ∃ rec v, (Outputs.data out)[i]? = some rec ∧ rec[j]? = some (c.name, v) ∧
      (isMissing (c.values.getD i Value.nan) → v = Value.null) := by
  obtain ⟨-, hout⟩ := mainPipeline_ok h
  subst hout
  exact emit_record_cell df hw i j c hc hi

/-- C5 witness: a concrete frame whose only cell is NaN emits the record with
the key present and the value null. -/
theorem c5_missing_as_null_witness :
    (Outputs.data (emitOutputs "T0" "s" "" "" "" "" ""
      (normalizeDatetimes (DataFrame.mk
        [Column.mk "a" Dtype.float64 [Value.nan]]))))[0]? =
      some [("a", Value.null)] := by
  obtain ⟨rec, v, h1, h2, h3⟩ := c5_missing_as_null
    (DataFrame.mk [Column.mk "a" Dtype.float64 [Value.nan]]) [] "T0" "s" "" "" "" "" ""
    (emitOutputs "T0" "s" "" "" "" "" ""
      (normalizeDatetimes (DataFrame.mk [Column.mk "a" Dtype.float64 [Value.nan]])))
    rfl (by unfold Wellformed; decide) 0 0
    (Column.mk "a" Dtype.float64 [Value.nan]) rfl (by decide)
  have e2 : some rec = some [("a", Value.null)] := h1.symm.trans (by decide)
  injection e2 with hrec
  subst hrec
  exact h1

end Ingest
